import Mathlib

/-!
# Taxonomy resource of the Contentstack Terraform provider

A shallow embedding of `internal/provider/resource_taxonomy.go`: the schema,
the two mapping functions `NewTaxonomyData` / `NewTaxonomyInput`, and the
handlers `Create`, `Read`, `Update`, `Delete`, `ImportState`, written in
state-passing style over the response object (`Diagnostics` and `State`).

Go pointers to strings (`*string`) are `Option String`; a Go `(value, error)`
result is an `Except`; the remote client and the helpers of the package that
are declared elsewhere (`processRemoteError`, `processResponse`,
`IsNotFoundError`) are parameters of the handlers.  Every handler also returns
the list of remote calls it issued, so that statements about which call was
made, and with which key, can be phrased.
-/

namespace Provider

/-! ## Framework values -/

/-- Framework value `types.String`: a string that may be unknown or null; the
Go zero value has both flags false and `Value` empty. -/
structure types.StringValue where
  Unknown : Bool
  Null : Bool
  Value : String
  deriving DecidableEq, Repr

/-- Severity of a diagnostic, as in the framework package `diag`. -/
inductive diag.Severity where
  | SeverityError
  | SeverityWarning
  deriving DecidableEq, Repr

/-- One diagnostic: severity, summary (title) and detail (message). -/
structure diag.Diagnostic where
  Severity : diag.Severity
  Summary : String
  Detail : String
  deriving DecidableEq, Repr

/-- The append-only collection `diag.Diagnostics`. -/
abbrev diag.Diagnostics := List diag.Diagnostic

/-- Constructor `diag.NewErrorDiagnostic(summary, detail)`. -/
def diag.NewErrorDiagnostic (summary detail : String) : diag.Diagnostic :=
  { Severity := diag.Severity.SeverityError, Summary := summary, Detail := detail }

/-- Method `Diagnostics.HasError`: some diagnostic has error severity. -/
def diag.HasError (diags : diag.Diagnostics) : Bool :=
  diags.any (fun d => decide (d.Severity = diag.Severity.SeverityError))

/-- Method `Diagnostics.Contains`: an equal diagnostic is already present. -/
def diag.Contains (diags : diag.Diagnostics) (d : diag.Diagnostic) : Bool :=
  diags.any (fun x => decide (x = d))

/-- Method `Diagnostics.Append`: adds, in order, each diagnostic that is not
already present. -/
def diag.Append (diags : diag.Diagnostics) (more : List diag.Diagnostic) : diag.Diagnostics :=
  more.foldl (fun acc d => if diag.Contains acc d then acc else acc ++ [d]) diags

/-! ## Data model -/

/-- Plan and state record of the resource (`TaxonomyData`). -/
structure TaxonomyData where
  UID : types.StringValue
  Name : types.StringValue
  Description : types.StringValue
  deriving DecidableEq, Repr

/-- Remote representation `management.Taxonomy`: the three fields read by
`NewTaxonomyData`. -/
structure management.Taxonomy where
  UID : String
  Name : String
  Description : String
  deriving DecidableEq, Repr

/-- Write payload `management.TaxonomyInput`: the three pointer fields set by
`NewTaxonomyInput`; `none` is the nil pointer. -/
structure management.TaxonomyInput where
  UID : Option String
  Name : Option String
  Description : Option String
  deriving DecidableEq, Repr

/-- Modifiers of a schema attribute. -/
structure tfsdk.Attribute where
  Required : Bool
  Optional : Bool
  Computed : Bool
  deriving DecidableEq, Repr

/-- Attributes declared by `resourceTaxonomyType.GetSchema`. -/
def GetSchema : List (String × tfsdk.Attribute) :=
  [ ("uid", { Required := false, Optional := true, Computed := true }),
    ("name", { Required := true, Optional := false, Computed := false }),
    ("description", { Required := false, Optional := true, Computed := false }) ]

/-- Mapping `NewTaxonomyData`: remote representation to state record. -/
def NewTaxonomyData (field : management.Taxonomy) : TaxonomyData :=
  { UID := { Unknown := false, Null := false, Value := field.UID },
    Name := { Unknown := false, Null := false, Value := field.Name },
    Description := { Unknown := false, Null := false, Value := field.Description } }

/-- Mapping `NewTaxonomyInput`: plan or state record to write payload; each
field is the address of the `Value` of the corresponding record field. -/
def NewTaxonomyInput (field : TaxonomyData) : management.TaxonomyInput :=
  { UID := some field.UID.Value,
    Name := some field.Name.Value,
    Description := some field.Description.Value }

/-! ## Framework state, requests and responses -/

/-- Response state `tfsdk.State`: `none` is the null object (no entry). -/
structure tfsdk.State where
  Raw : Option TaxonomyData
  deriving DecidableEq, Repr

/-- Method `State.Set` with a `TaxonomyData`: overwrites the whole object. -/
def tfsdk.State.Set (_s : tfsdk.State) (val : TaxonomyData) : tfsdk.State × diag.Diagnostics :=
  ({ Raw := some val }, [])

/-- Method `State.RemoveResource`: the state becomes the null object. -/
def tfsdk.State.RemoveResource (_s : tfsdk.State) : tfsdk.State :=
  { Raw := none }

/-- A null `types.StringValue`. -/
def types.nullString : types.StringValue :=
  { Unknown := false, Null := true, Value := "" }

/-- The record with every attribute null. -/
def TaxonomyData.allNull : TaxonomyData :=
  { UID := types.nullString, Name := types.nullString, Description := types.nullString }

/-- Writes one attribute of the record, selected by its `tfsdk` tag. -/
def TaxonomyData.setAttr (d : TaxonomyData) (name : String) (v : types.StringValue) : TaxonomyData :=
  if name = "uid" then { d with UID := v }
  else if name = "name" then { d with Name := v }
  else if name = "description" then { d with Description := v }
  else d

/-- Method `State.SetAttribute` with a string value: the path must name an
attribute of the schema, otherwise the state is left as it is and an error
diagnostic is returned. -/
def tfsdk.State.SetAttribute (s : tfsdk.State) (path : List String) (val : String) :
    tfsdk.State × diag.Diagnostics :=
  match path with
  | [name] =>
    if (GetSchema.map Prod.fst).contains name then
      ({ Raw := some ((s.Raw.getD TaxonomyData.allNull).setAttr name
          { Unknown := false, Null := false, Value := val }) }, [])
    else
      (s, [diag.NewErrorDiagnostic "State Write Error" "error getting attribute type in schema"])
  | _ =>
    (s, [diag.NewErrorDiagnostic "State Write Error" "error getting attribute type in schema"])

/-- What a handler obtains from `req.Plan.Get` or `req.State.Get`: the decoded
record and the diagnostics of decoding. -/
structure tfsdk.Source where
  value : TaxonomyData
  diags : diag.Diagnostics
  deriving DecidableEq, Repr

/-- Method `Get` of the plan or state of a request. -/
def tfsdk.Source.Get (s : tfsdk.Source) : TaxonomyData × diag.Diagnostics :=
  (s.value, s.diags)

/-- Request of Create: the plan. -/
structure tfsdk.CreateResourceRequest where
  Plan : tfsdk.Source

/-- Request of Read: the current state. -/
structure tfsdk.ReadResourceRequest where
  State : tfsdk.Source

/-- Request of Delete: the current state. -/
structure tfsdk.DeleteResourceRequest where
  State : tfsdk.Source

/-- Request of Update: the plan and the current state. -/
structure tfsdk.UpdateResourceRequest where
  Plan : tfsdk.Source
  State : tfsdk.Source

/-- Request of ImportState: the identifier given by the user. -/
structure tfsdk.ImportResourceStateRequest where
  ID : String

/-- Response object of every handler: diagnostics and state. -/
structure tfsdk.Response where
  Diagnostics : diag.Diagnostics
  State : tfsdk.State
  deriving DecidableEq, Repr

/-! ## Collaborators -/

/-- Remote client `r.p.stack`, with errors of type `ε`. -/
structure Stack (ε : Type) where
  TaxonomyCreate : management.TaxonomyInput → Except ε management.Taxonomy
  TaxonomyFetch : String → Except ε management.Taxonomy
  TaxonomyUpdate : String → management.TaxonomyInput → Except ε management.Taxonomy
  TaxonomyDelete : String → Option ε

/-- Helpers of the package declared outside this file of the source. -/
structure Helpers (ε : Type) where
  processRemoteError : ε → diag.Diagnostics
  processResponse : management.Taxonomy → management.TaxonomyInput → diag.Diagnostics
  IsNotFoundError : ε → Bool

/-- A remote call issued by a handler, with its arguments. -/
inductive RemoteCall where
  | TaxonomyCreate (input : management.TaxonomyInput)
  | TaxonomyFetch (uid : String)
  | TaxonomyUpdate (uid : String) (input : management.TaxonomyInput)
  | TaxonomyDelete (uid : String)
  deriving DecidableEq, Repr

/-- Result of running a handler: the response and the remote calls issued. -/
structure Outcome where
  resp : tfsdk.Response
  calls : List RemoteCall
  deriving DecidableEq, Repr

/-! ## Handlers -/

/-- Handler `resourceTaxonomy.Create`. -/
def Create {ε : Type} (stack : Stack ε) (h : Helpers ε)
    (req : tfsdk.CreateResourceRequest) (resp : tfsdk.Response) : Outcome :=
  let plan := req.Plan.Get.1
  let diags := req.Plan.Get.2
  let resp := { resp with Diagnostics := diag.Append resp.Diagnostics diags }
  if diag.HasError resp.Diagnostics then
    { resp := resp, calls := [] }
  else
    let input := NewTaxonomyInput plan
    match stack.TaxonomyCreate input with
    | Except.error err =>
      let diags := h.processRemoteError err
      { resp := { resp with Diagnostics := diag.Append resp.Diagnostics diags },
        calls := [RemoteCall.TaxonomyCreate input] }
    | Except.ok resource =>
      let diags := h.processResponse resource input
      let resp := { resp with Diagnostics := diag.Append resp.Diagnostics diags }
      let state := NewTaxonomyData resource
      let written := resp.State.Set state
      { resp := { Diagnostics := diag.Append resp.Diagnostics written.2, State := written.1 },
        calls := [RemoteCall.TaxonomyCreate input] }

/-- Handler `resourceTaxonomy.Read`. -/
def Read {ε : Type} (stack : Stack ε) (h : Helpers ε)
    (req : tfsdk.ReadResourceRequest) (resp : tfsdk.Response) : Outcome :=
  let state := req.State.Get.1
  let diags := req.State.Get.2
  let resp := { resp with Diagnostics := diag.Append resp.Diagnostics diags }
  if diag.HasError resp.Diagnostics then
    { resp := resp, calls := [] }
  else
    match stack.TaxonomyFetch state.UID.Value with
    | Except.error err =>
      if h.IsNotFoundError err then
        let d := diag.NewErrorDiagnostic "Error retrieving taxonomy"
          ("The taxonomy with UID " ++ state.UID.Value ++ " was not found.")
        { resp := { resp with Diagnostics := diag.Append resp.Diagnostics [d] },
          calls := [RemoteCall.TaxonomyFetch state.UID.Value] }
      else
        let diags := h.processRemoteError err
        { resp := { resp with Diagnostics := diag.Append resp.Diagnostics diags },
          calls := [RemoteCall.TaxonomyFetch state.UID.Value] }
    | Except.ok resource =>
      let curr := NewTaxonomyInput state
      let diags := h.processResponse resource curr
      let resp := { resp with Diagnostics := diag.Append resp.Diagnostics diags }
      let newState := NewTaxonomyData resource
      let written := resp.State.Set newState
      { resp := { Diagnostics := diag.Append resp.Diagnostics written.2, State := written.1 },
        calls := [RemoteCall.TaxonomyFetch state.UID.Value] }

/-- Handler `resourceTaxonomy.Delete`. -/
def Delete {ε : Type} (stack : Stack ε) (h : Helpers ε)
    (req : tfsdk.DeleteResourceRequest) (resp : tfsdk.Response) : Outcome :=
  let state := req.State.Get.1
  let diags := req.State.Get.2
  let resp := { resp with Diagnostics := diag.Append resp.Diagnostics diags }
  if diag.HasError resp.Diagnostics then
    { resp := resp, calls := [] }
  else
    match stack.TaxonomyDelete state.UID.Value with
    | some err =>
      let diags := h.processRemoteError err
      { resp := { resp with Diagnostics := diag.Append resp.Diagnostics diags },
        calls := [RemoteCall.TaxonomyDelete state.UID.Value] }
    | none =>
      { resp := { resp with State := resp.State.RemoveResource },
        calls := [RemoteCall.TaxonomyDelete state.UID.Value] }

/-- Handler `resourceTaxonomy.Update`. -/
def Update {ε : Type} (stack : Stack ε) (h : Helpers ε)
    (req : tfsdk.UpdateResourceRequest) (resp : tfsdk.Response) : Outcome :=
  let plan := req.Plan.Get.1
  let diags := req.Plan.Get.2
  let resp := { resp with Diagnostics := diag.Append resp.Diagnostics diags }
  if diag.HasError resp.Diagnostics then
    { resp := resp, calls := [] }
  else
    let state := req.State.Get.1
    let diags := req.State.Get.2
    let resp := { resp with Diagnostics := diag.Append resp.Diagnostics diags }
    if diag.HasError resp.Diagnostics then
      { resp := resp, calls := [] }
    else
      let input := NewTaxonomyInput plan
      match stack.TaxonomyUpdate state.UID.Value input with
      | Except.error err =>
        let diags := h.processRemoteError err
        { resp := { resp with Diagnostics := diag.Append resp.Diagnostics diags },
          calls := [RemoteCall.TaxonomyUpdate state.UID.Value input] }
      | Except.ok resource =>
        let diags := h.processResponse resource input
        let resp := { resp with Diagnostics := diag.Append resp.Diagnostics diags }
        let result := NewTaxonomyData resource
        let written := resp.State.Set result
        { resp := { Diagnostics := diag.Append resp.Diagnostics written.2, State := written.1 },
          calls := [RemoteCall.TaxonomyUpdate state.UID.Value input] }

/-- Framework function `tfsdk.ResourceImportStatePassthroughID`: an empty path
is reported, and the identifier is written to the state attribute at `path`. -/
def tfsdk.ResourceImportStatePassthroughID (path : List String)
    (req : tfsdk.ImportResourceStateRequest) (resp : tfsdk.Response) : tfsdk.Response :=
  let missing := diag.NewErrorDiagnostic "Resource Import Passthrough Missing Attribute Path"
    "path must be set to a valid attribute path that can accept a string value"
  let resp :=
    if path = [] then { resp with Diagnostics := diag.Append resp.Diagnostics [missing] }
    else resp
  let written := resp.State.SetAttribute path req.ID
  { Diagnostics := diag.Append resp.Diagnostics written.2, State := written.1 }

/-- Handler `resourceTaxonomy.ImportState`: passes the identifier through to
the attribute path `id`. -/
def ImportState (req : tfsdk.ImportResourceStateRequest) (resp : tfsdk.Response) : Outcome :=
  { resp := tfsdk.ResourceImportStatePassthroughID ["id"] req resp, calls := [] }

/-! ## Concrete collaborators used in the worked examples -/

/-- A remote that assigns the uid `tax_001` on create, echoes the payload on
update keyed by the given uid, serves one fixed resource and deletes without
error. -/
def Example.stack : Stack String :=
  { TaxonomyCreate := fun i =>
      Except.ok { UID := "tax_001", Name := i.Name.getD "", Description := i.Description.getD "" },
    TaxonomyFetch := fun uid =>
      Except.ok { UID := uid, Name := "Regions", Description := "Geo taxonomy" },
    TaxonomyUpdate := fun uid i =>
      Except.ok { UID := uid, Name := i.Name.getD "", Description := i.Description.getD "" },
    TaxonomyDelete := fun _ => none }

/-- A remote on which every call fails. -/
def Example.failingStack : Stack String :=
  { TaxonomyCreate := fun _ => Except.error "boom",
    TaxonomyFetch := fun _ => Except.error "not found",
    TaxonomyUpdate := fun _ _ => Except.error "boom",
    TaxonomyDelete := fun _ => some "boom" }

/-- Helpers whose reconciliation reports nothing. -/
def Example.helpers : Helpers String :=
  { processRemoteError := fun e => [diag.NewErrorDiagnostic "Remote error" e],
    processResponse := fun _ _ => [],
    IsNotFoundError := fun e => decide (e = "not found") }

/-- Helpers whose reconciliation always reports an error diagnostic. -/
def Example.strictHelpers : Helpers String :=
  { processRemoteError := fun e => [diag.NewErrorDiagnostic "Remote error" e],
    processResponse := fun _ _ => [diag.NewErrorDiagnostic "Mismatch" "field differs"],
    IsNotFoundError := fun e => decide (e = "not found") }

/-- A known string value. -/
def Example.known (v : String) : types.StringValue :=
  { Unknown := false, Null := false, Value := v }

/-- An unknown string value, as for a computed attribute not yet assigned. -/
def Example.unknown : types.StringValue :=
  { Unknown := true, Null := false, Value := "" }

/-- The plan of the worked example: name `Regions`, description `Geo taxonomy`,
uid not yet assigned. -/
def Example.plan : tfsdk.Source :=
  { value := { UID := Example.unknown, Name := Example.known "Regions",
               Description := Example.known "Geo taxonomy" },
    diags := [] }

/-- The state of the worked example after creation. -/
def Example.state : tfsdk.Source :=
  { value := { UID := Example.known "tax_001", Name := Example.known "Regions",
               Description := Example.known "Geo taxonomy" },
    diags := [] }

/-- An empty response: no diagnostics, no state entry. -/
def Example.emptyResp : tfsdk.Response :=
  { Diagnostics := [], State := { Raw := none } }

/-- A response carrying the state of the worked example. -/
def Example.stateResp : tfsdk.Response :=
  { Diagnostics := [], State := { Raw := some Example.state.value } }

/-- A remote whose update answers with another uid than the one it was keyed
by. -/
def Example.reassigningStack : Stack String :=
  { TaxonomyCreate := Example.stack.TaxonomyCreate,
    TaxonomyFetch := Example.stack.TaxonomyFetch,
    TaxonomyUpdate := fun _ i =>
      Except.ok { UID := "tax_002", Name := i.Name.getD "", Description := i.Description.getD "" },
    TaxonomyDelete := Example.stack.TaxonomyDelete }

/-- A plan for an update: the uid carried over from the state, a new name and
no description (null). -/
def Example.updatePlan : tfsdk.Source :=
  { value := { UID := Example.known "tax_001", Name := Example.known "Areas",
               Description := types.nullString },
    diags := [] }

/-! ## Lemmas on diagnostics -/

theorem diag.Append_nil (diags : diag.Diagnostics) : diag.Append diags [] = diags := rfl

theorem diag.Append_cons (diags : diag.Diagnostics) (d : diag.Diagnostic)
    (more : List diag.Diagnostic) :
    diag.Append diags (d :: more)
      = diag.Append (if diag.Contains diags d then diags else diags ++ [d]) more := rfl

theorem diag.Contains_iff (diags : diag.Diagnostics) (d : diag.Diagnostic) :
    diag.Contains diags d = true ↔ d ∈ diags := by
  unfold diag.Contains
  simp

theorem diag.Append_extends (diags : diag.Diagnostics) (more : List diag.Diagnostic) :
    ∃ extra, diag.Append diags more = diags ++ extra := by
  induction more generalizing diags with
  | nil => exact ⟨[], by simp [diag.Append_nil]⟩
  | cons d more ih =>
    rw [diag.Append_cons]
    by_cases hc : diag.Contains diags d = true
    · simp only [hc, if_true]
      exact ih diags
    · simp only [hc]
      obtain ⟨extra, hx⟩ := ih (diags ++ [d])
      exact ⟨[d] ++ extra, by simp [hx]⟩

theorem diag.mem_Append_left (diags : diag.Diagnostics) (more : List diag.Diagnostic)
    (d : diag.Diagnostic) (hd : d ∈ diags) : d ∈ diag.Append diags more := by
  obtain ⟨extra, hx⟩ := diag.Append_extends diags more
  rw [hx]
  exact List.mem_append_left _ hd

theorem diag.mem_Append_right (diags : diag.Diagnostics) (more : List diag.Diagnostic)
    (d : diag.Diagnostic) (hd : d ∈ more) : d ∈ diag.Append diags more := by
  induction more generalizing diags with
  | nil => cases hd
  | cons x more ih =>
    rw [diag.Append_cons]
    rcases List.mem_cons.mp hd with hx | hx
    · subst hx
      apply diag.mem_Append_left
      by_cases hc : diag.Contains diags d = true
      · simp only [hc, if_true]
        exact (diag.Contains_iff diags d).mp hc
      · simp [hc]
    · exact ih _ hx

theorem diag.not_Contains_error (diags : diag.Diagnostics) (summary detail : String)
    (hno : diag.HasError diags = false) :
    diag.Contains diags (diag.NewErrorDiagnostic summary detail) = false := by
  cases hc : diag.Contains diags (diag.NewErrorDiagnostic summary detail) with
  | false => rfl
  | true =>
    have hmem := (diag.Contains_iff _ _).mp hc
    have : diag.HasError diags = true := by
      unfold diag.HasError
      simp only [List.any_eq_true, decide_eq_true_eq]
      exact ⟨_, hmem, rfl⟩
    rw [hno] at this
    cases this

/-! ## Create -/

/-- C1: when the plan is read without error and the remote create returns the
resource `r` without error, the state written by Create is exactly
`NewTaxonomyData r`: uid, name and description are the known values `r.UID`,
`r.Name` and `r.Description`. -/
theorem Create_writes_remote_representation {ε : Type} (stack : Stack ε) (h : Helpers ε)
    (req : tfsdk.CreateResourceRequest) (resp : tfsdk.Response) (r : management.Taxonomy)
    (hplan : diag.HasError (diag.Append resp.Diagnostics req.Plan.Get.2) = false)
    (hok : stack.TaxonomyCreate (NewTaxonomyInput req.Plan.Get.1) = Except.ok r) :
    (Create stack h req resp).resp.State.Raw = some (NewTaxonomyData r)
      ∧ (Create stack h req resp).resp.State.Raw
          = some { UID := { Unknown := false, Null := false, Value := r.UID },
                   Name := { Unknown := false, Null := false, Value := r.Name },
                   Description := { Unknown := false, Null := false, Value := r.Description } } := by
  simp [Create, hplan, hok, tfsdk.State.Set, NewTaxonomyData]

/-- Worked example of C1: the plan with name `Regions` and description
`Geo taxonomy`, answered by the remote with uid `tax_001`. -/
theorem Create_writes_remote_representation_witness :
    diag.HasError (diag.Append Example.emptyResp.Diagnostics Example.plan.Get.2) = false
      ∧ Example.stack.TaxonomyCreate (NewTaxonomyInput Example.plan.Get.1)
          = Except.ok { UID := "tax_001", Name := "Regions", Description := "Geo taxonomy" }
      ∧ (Create Example.stack Example.helpers { Plan := Example.plan } Example.emptyResp).resp.State.Raw
          = some { UID := { Unknown := false, Null := false, Value := "tax_001" },
                   Name := { Unknown := false, Null := false, Value := "Regions" },
                   Description := { Unknown := false, Null := false, Value := "Geo taxonomy" } } :=
  ⟨rfl, rfl,
    (Create_writes_remote_representation Example.stack Example.helpers { Plan := Example.plan }
      Example.emptyResp { UID := "tax_001", Name := "Regions", Description := "Geo taxonomy" }
      rfl rfl).2⟩

/-- C2: when the remote create returns an error, Create leaves the response
state as it was, and (the plan having been read without error) the diagnostics
are the previous ones with the translated diagnostics appended; the only remote
call is that create. -/
theorem Create_remote_error_writes_no_state {ε : Type} (stack : Stack ε) (h : Helpers ε)
    (req : tfsdk.CreateResourceRequest) (resp : tfsdk.Response) (e : ε)
    (herr : stack.TaxonomyCreate (NewTaxonomyInput req.Plan.Get.1) = Except.error e) :
    (Create stack h req resp).resp.State = resp.State
      ∧ (diag.HasError (diag.Append resp.Diagnostics req.Plan.Get.2) = false →
          (Create stack h req resp).resp.Diagnostics
            = diag.Append (diag.Append resp.Diagnostics req.Plan.Get.2) (h.processRemoteError e)) := by
  constructor
  · unfold Create
    simp only [herr]
    split <;> rfl
  · intro hplan
    simp [Create, hplan, herr]

/-- Worked example of C2: a failing remote leaves the empty state empty and
reports the translated error. -/
theorem Create_remote_error_writes_no_state_witness :
    Example.failingStack.TaxonomyCreate (NewTaxonomyInput Example.plan.Get.1) = Except.error "boom"
      ∧ (Create Example.failingStack Example.helpers { Plan := Example.plan }
            Example.emptyResp).resp.State = Example.emptyResp.State
      ∧ (Create Example.failingStack Example.helpers { Plan := Example.plan }
            Example.emptyResp).resp.Diagnostics
          = diag.Append (diag.Append Example.emptyResp.Diagnostics Example.plan.Get.2)
              (Example.helpers.processRemoteError "boom") :=
  ⟨rfl,
    (Create_remote_error_writes_no_state Example.failingStack Example.helpers
      { Plan := Example.plan } Example.emptyResp "boom" rfl).1,
    (Create_remote_error_writes_no_state Example.failingStack Example.helpers
      { Plan := Example.plan } Example.emptyResp "boom" rfl).2 rfl⟩

/-! ## Delete -/

/-- C3: when the state is read without error, Delete leaves the response state
unchanged if the remote delete returns an error and removes it if the remote
delete returns none; so an existing state entry is removed if and only if the
remote delete succeeds. -/
theorem Delete_removes_state_iff_remote_ok {ε : Type} (stack : Stack ε) (h : Helpers ε)
    (req : tfsdk.DeleteResourceRequest) (resp : tfsdk.Response)
    (hstate : diag.HasError (diag.Append resp.Diagnostics req.State.Get.2) = false) :
    (∀ e, stack.TaxonomyDelete req.State.Get.1.UID.Value = some e →
        (Delete stack h req resp).resp.State = resp.State)
      ∧ (stack.TaxonomyDelete req.State.Get.1.UID.Value = none →
        (Delete stack h req resp).resp.State = { Raw := none })
      ∧ (resp.State.Raw ≠ none →
        ((Delete stack h req resp).resp.State.Raw = none
          ↔ stack.TaxonomyDelete req.State.Get.1.UID.Value = none)) := by
  refine ⟨?_, ?_, ?_⟩
  · intro e he
    simp [Delete, hstate, he]
  · intro hn
    simp [Delete, hstate, hn, tfsdk.State.RemoveResource]
  · intro hraw
    cases hd : stack.TaxonomyDelete req.State.Get.1.UID.Value with
    | none => simp [Delete, hstate, hd, tfsdk.State.RemoveResource]
    | some e => simp [Delete, hstate, hd, hraw]

/-- Worked example of C3: on the succeeding remote the entry is removed, on the
failing remote it stays. -/
theorem Delete_removes_state_iff_remote_ok_witness :
    diag.HasError (diag.Append Example.stateResp.Diagnostics Example.state.Get.2) = false
      ∧ (Delete Example.stack Example.helpers { State := Example.state }
            Example.stateResp).resp.State = { Raw := none }
      ∧ (Delete Example.failingStack Example.helpers { State := Example.state }
            Example.stateResp).resp.State = Example.stateResp.State :=
  ⟨rfl,
    (Delete_removes_state_iff_remote_ok Example.stack Example.helpers { State := Example.state }
      Example.stateResp rfl).2.1 rfl,
    (Delete_removes_state_iff_remote_ok Example.failingStack Example.helpers
      { State := Example.state } Example.stateResp rfl).1 "boom" rfl⟩

/-! ## Update -/

/-- C4, as stated, fails: the plan and state are read without error, the remote
update keyed by `tax_001` succeeds and answers with uid `tax_002`, and the uid
persisted by Update is not the uid of the state before the Update. -/
theorem Update_uid_invariant_counterexample :
    diag.HasError (diag.Append Example.stateResp.Diagnostics Example.updatePlan.Get.2) = false
      ∧ diag.HasError (diag.Append (diag.Append Example.stateResp.Diagnostics
          Example.updatePlan.Get.2) Example.state.Get.2) = false
      ∧ Example.reassigningStack.TaxonomyUpdate Example.state.Get.1.UID.Value
          (NewTaxonomyInput Example.updatePlan.Get.1)
          = Except.ok { UID := "tax_002", Name := "Areas", Description := "" }
      ∧ ¬ ((Update Example.reassigningStack Example.helpers
              { Plan := Example.updatePlan, State := Example.state }
              Example.stateResp).resp.State.Raw.map (fun d => d.UID)
            = some Example.state.Get.1.UID) := by
  refine ⟨rfl, rfl, rfl, ?_⟩
  decide

/-- C4, amended: when plan and state are read without error and the remote
update returns `r`, the state persisted by Update is `NewTaxonomyData r`; its
uid is `r.UID`, so it is the uid of the state before the Update exactly when
the remote answers with that uid, and name and description are those of `r`. -/
theorem Update_persists_remote_uid {ε : Type} (stack : Stack ε) (h : Helpers ε)
    (req : tfsdk.UpdateResourceRequest) (resp : tfsdk.Response) (r : management.Taxonomy)
    (hplan : diag.HasError (diag.Append resp.Diagnostics req.Plan.Get.2) = false)
    (hstate : diag.HasError (diag.Append (diag.Append resp.Diagnostics req.Plan.Get.2)
        req.State.Get.2) = false)
    (hok : stack.TaxonomyUpdate req.State.Get.1.UID.Value (NewTaxonomyInput req.Plan.Get.1)
        = Except.ok r) :
    (Update stack h req resp).resp.State.Raw = some (NewTaxonomyData r)
      ∧ (NewTaxonomyData r).UID.Value = r.UID
      ∧ (NewTaxonomyData r).Name.Value = r.Name
      ∧ (NewTaxonomyData r).Description.Value = r.Description
      ∧ ((NewTaxonomyData r).UID.Value = req.State.Get.1.UID.Value
          ↔ r.UID = req.State.Get.1.UID.Value) := by
  refine ⟨?_, rfl, rfl, rfl, Iff.rfl⟩
  simp [Update, hplan, hstate, hok, tfsdk.State.Set]

/-- Worked example of amended C4: a remote echoing the key keeps the uid and
changes the name. -/
theorem Update_persists_remote_uid_witness :
    diag.HasError (diag.Append Example.stateResp.Diagnostics Example.updatePlan.Get.2) = false
      ∧ diag.HasError (diag.Append (diag.Append Example.stateResp.Diagnostics
          Example.updatePlan.Get.2) Example.state.Get.2) = false
      ∧ Example.stack.TaxonomyUpdate Example.state.Get.1.UID.Value
          (NewTaxonomyInput Example.updatePlan.Get.1)
          = Except.ok { UID := "tax_001", Name := "Areas", Description := "" }
      ∧ (Update Example.stack Example.helpers
            { Plan := Example.updatePlan, State := Example.state }
            Example.stateResp).resp.State.Raw
          = some (NewTaxonomyData { UID := "tax_001", Name := "Areas", Description := "" }) :=
  ⟨rfl, rfl, rfl,
    (Update_persists_remote_uid Example.stack Example.helpers
      { Plan := Example.updatePlan, State := Example.state } Example.stateResp
      { UID := "tax_001", Name := "Areas", Description := "" } rfl rfl rfl).1⟩

/-- C8, as stated, fails: the payload built from a plan carries a uid field;
in the update of the worked example the remote is keyed by the state uid
`tax_001` and the payload holds uid `tax_001` as well. -/
theorem Update_payload_uid_counterexample :
    (Update Example.stack Example.helpers
        { Plan := Example.updatePlan, State := Example.state } Example.stateResp).calls
      = [RemoteCall.TaxonomyUpdate "tax_001"
          { UID := some "tax_001", Name := some "Areas", Description := some "" }]
      ∧ ¬ ((NewTaxonomyInput Example.updatePlan.Get.1).UID = none) := by
  refine ⟨rfl, ?_⟩
  decide

/-- C8, amended: Update identifies its target by the uid of the current state.
Its outcome depends on the remote only through the answer of `TaxonomyUpdate`
at the key `state.uid` with the payload built from the plan: when plan and
state are read without error, a resource answered there is the one persisted
and an error answered there is the one translated, and two remotes that agree
there give the same outcome.  Every remote call of Update is an update with
that key and payload (exactly one when plan and state are read without error),
and that payload carries a uid field holding the `Value` of the uid of the
plan. -/
theorem Update_keyed_by_state_uid {ε : Type} (stack : Stack ε) (h : Helpers ε)
    (req : tfsdk.UpdateResourceRequest) (resp : tfsdk.Response) :
    (∀ c ∈ (Update stack h req resp).calls,
        c = RemoteCall.TaxonomyUpdate req.State.Get.1.UID.Value (NewTaxonomyInput req.Plan.Get.1))
      ∧ (diag.HasError (diag.Append resp.Diagnostics req.Plan.Get.2) = false →
          diag.HasError (diag.Append (diag.Append resp.Diagnostics req.Plan.Get.2)
            req.State.Get.2) = false →
          (Update stack h req resp).calls
            = [RemoteCall.TaxonomyUpdate req.State.Get.1.UID.Value
                (NewTaxonomyInput req.Plan.Get.1)])
      ∧ (NewTaxonomyInput req.Plan.Get.1).UID = some req.Plan.Get.1.UID.Value
      ∧ (∀ other : Stack ε,
          other.TaxonomyUpdate req.State.Get.1.UID.Value (NewTaxonomyInput req.Plan.Get.1)
            = stack.TaxonomyUpdate req.State.Get.1.UID.Value (NewTaxonomyInput req.Plan.Get.1) →
          Update other h req resp = Update stack h req resp)
      ∧ (diag.HasError (diag.Append resp.Diagnostics req.Plan.Get.2) = false →
          diag.HasError (diag.Append (diag.Append resp.Diagnostics req.Plan.Get.2)
            req.State.Get.2) = false →
          (∀ r, stack.TaxonomyUpdate req.State.Get.1.UID.Value (NewTaxonomyInput req.Plan.Get.1)
              = Except.ok r →
            (Update stack h req resp).resp.State.Raw = some (NewTaxonomyData r))
          ∧ (∀ e, stack.TaxonomyUpdate req.State.Get.1.UID.Value
              (NewTaxonomyInput req.Plan.Get.1) = Except.error e →
            (Update stack h req resp).resp.State = resp.State
              ∧ (Update stack h req resp).resp.Diagnostics
                = diag.Append (diag.Append (diag.Append resp.Diagnostics req.Plan.Get.2)
                    req.State.Get.2) (h.processRemoteError e))) := by
  refine ⟨?_, ?_, rfl, ?_, ?_⟩
  · intro c hc
    unfold Update at hc
    simp only at hc
    split at hc
    · simp at hc
    · split at hc
      · simp at hc
      · split at hc <;> simpa using hc
  · intro hplan hstate
    cases hu : stack.TaxonomyUpdate req.State.Get.1.UID.Value (NewTaxonomyInput req.Plan.Get.1) with
    | error e => simp [Update, hplan, hstate, hu]
    | ok r => simp [Update, hplan, hstate, hu]
  · intro other hagree
    unfold Update
    simp only [hagree]
  · intro hplan hstate
    refine ⟨?_, ?_⟩
    · intro r hr
      simp [Update, hplan, hstate, hr, tfsdk.State.Set]
    · intro e he
      simp [Update, hplan, hstate, he]

/-- Worked example of amended C8: the plan carries no uid (unknown, `Value`
empty) and the state carries `tax_001`; the remote of the example answers an
update with the uid it was keyed by, and the uid persisted is `tax_001`, so the
key was the uid of the state. -/
theorem Update_keyed_by_state_uid_witness :
    diag.HasError (diag.Append Example.stateResp.Diagnostics Example.plan.Get.2) = false
      ∧ diag.HasError (diag.Append (diag.Append Example.stateResp.Diagnostics
          Example.plan.Get.2) Example.state.Get.2) = false
      ∧ Example.plan.Get.1.UID.Value = ""
      ∧ Example.state.Get.1.UID.Value = "tax_001"
      ∧ Example.stack.TaxonomyUpdate "tax_001" (NewTaxonomyInput Example.plan.Get.1)
          = Except.ok { UID := "tax_001", Name := "Regions", Description := "Geo taxonomy" }
      ∧ (Update Example.stack Example.helpers
            { Plan := Example.plan, State := Example.state } Example.stateResp).calls
          = [RemoteCall.TaxonomyUpdate "tax_001" (NewTaxonomyInput Example.plan.Get.1)]
      ∧ (Update Example.stack Example.helpers
            { Plan := Example.plan, State := Example.state } Example.stateResp).resp.State.Raw
          = some (NewTaxonomyData
              { UID := "tax_001", Name := "Regions", Description := "Geo taxonomy" }) :=
  ⟨rfl, rfl, rfl, rfl, rfl,
    (Update_keyed_by_state_uid Example.stack Example.helpers
      { Plan := Example.plan, State := Example.state } Example.stateResp).2.1 rfl rfl,
    ((Update_keyed_by_state_uid Example.stack Example.helpers
      { Plan := Example.plan, State := Example.state } Example.stateResp).2.2.2.2 rfl rfl).1
      { UID := "tax_001", Name := "Regions", Description := "Geo taxonomy" } rfl⟩

/-! ## The request payload -/

/-- C9, as stated, fails: for the plan whose description is null and the plan
whose uid is unknown, the payload built by `NewTaxonomyInput` carries a value
for the field, namely the empty string. -/
theorem NewTaxonomyInput_null_field_counterexample :
    Example.updatePlan.value.Description.Null = true
      ∧ (NewTaxonomyInput Example.updatePlan.value).Description = some ""
      ∧ ¬ ((NewTaxonomyInput Example.updatePlan.value).Description = none)
      ∧ Example.plan.value.UID.Unknown = true
      ∧ (NewTaxonomyInput Example.plan.value).UID = some ""
      ∧ ¬ ((NewTaxonomyInput Example.plan.value).UID = none) := by
  refine ⟨rfl, rfl, ?_, rfl, rfl, ?_⟩ <;> decide

/-- C9, amended: `NewTaxonomyInput` copies the `Value` of each of the three
fields uid, name and description into the payload whatever the null and unknown
flags are, so every payload field is present; a null field is sent as the empty
string; nothing but these three values takes part in the payload. -/
theorem NewTaxonomyInput_copies_values (field : TaxonomyData)
    (u₁ n₁ u₂ n₂ u₃ n₃ : Bool) :
    NewTaxonomyInput field
        = { UID := some field.UID.Value, Name := some field.Name.Value,
            Description := some field.Description.Value }
      ∧ (NewTaxonomyInput field).UID ≠ none
      ∧ (NewTaxonomyInput field).Name ≠ none
      ∧ (NewTaxonomyInput field).Description ≠ none
      ∧ NewTaxonomyInput
          { UID := { Unknown := u₁, Null := n₁, Value := field.UID.Value },
            Name := { Unknown := u₂, Null := n₂, Value := field.Name.Value },
            Description := { Unknown := u₃, Null := n₃, Value := field.Description.Value } }
          = NewTaxonomyInput field
      ∧ (NewTaxonomyInput { field with Description := types.nullString }).Description = some ""
      ∧ (NewTaxonomyInput { field with UID := types.nullString }).UID = some "" := by
  refine ⟨rfl, ?_, ?_, ?_, rfl, rfl, rfl⟩ <;> simp [NewTaxonomyInput]

/-! ## ImportState -/

/-- C5 on the code: importing the identifier `tax_123` into an empty state
addresses the attribute `id`, which the schema does not declare; the state
stays without entry (no uid is set), an error diagnostic is reported, and no
remote call is made. -/
theorem ImportState_tax_123_sets_no_uid :
    (GetSchema.map Prod.fst) = ["uid", "name", "description"]
      ∧ (ImportState { ID := "tax_123" } Example.emptyResp).resp.State.Raw = none
      ∧ diag.HasError (ImportState { ID := "tax_123" } Example.emptyResp).resp.Diagnostics = true
      ∧ (ImportState { ID := "tax_123" } Example.emptyResp).calls = []
      ∧ (tfsdk.ResourceImportStatePassthroughID ["uid"] { ID := "tax_123" }
            Example.emptyResp).State.Raw
          = some { UID := { Unknown := false, Null := false, Value := "tax_123" },
                   Name := types.nullString, Description := types.nullString } := by
  refine ⟨rfl, ?_, ?_, rfl, ?_⟩ <;> decide

/-! ## Read -/

/-- C6: when the state is read without error and the remote fetch returns an
error that `IsNotFoundError` classifies as not found, Read appends exactly one
diagnostic, the error titled `Error retrieving taxonomy` whose message names
the uid, leaves the state untouched, and its outcome does not depend on the
translator `processRemoteError`. -/
theorem Read_not_found_diagnostic {ε : Type} (stack : Stack ε) (h : Helpers ε)
    (req : tfsdk.ReadResourceRequest) (resp : tfsdk.Response) (e : ε)
    (hstate : diag.HasError (diag.Append resp.Diagnostics req.State.Get.2) = false)
    (hfetch : stack.TaxonomyFetch req.State.Get.1.UID.Value = Except.error e)
    (hnf : h.IsNotFoundError e = true) :
    (Read stack h req resp).resp.Diagnostics
        = diag.Append resp.Diagnostics req.State.Get.2
          ++ [{ Severity := diag.Severity.SeverityError,
                Summary := "Error retrieving taxonomy",
                Detail := "The taxonomy with UID " ++ req.State.Get.1.UID.Value
                  ++ " was not found." }]
      ∧ (Read stack h req resp).resp.State = resp.State
      ∧ ∀ translate : ε → diag.Diagnostics,
          Read stack { h with processRemoteError := translate } req resp = Read stack h req resp := by
  have hc := diag.not_Contains_error (diag.Append resp.Diagnostics req.State.Get.2)
    "Error retrieving taxonomy"
    ("The taxonomy with UID " ++ req.State.Get.1.UID.Value ++ " was not found.") hstate
  refine ⟨?_, ?_, ?_⟩
  · simp only [Read, hstate, hfetch, hnf, diag.Append_cons, diag.Append_nil, hc]
    simp [diag.NewErrorDiagnostic]
  · simp [Read, hstate, hfetch, hnf]
  · intro translate
    simp [Read, hstate, hfetch, hnf]

/-- Worked example of C6: reading `tax_001` on a remote that answers
`not found`. -/
theorem Read_not_found_diagnostic_witness :
    diag.HasError (diag.Append Example.stateResp.Diagnostics Example.state.Get.2) = false
      ∧ Example.failingStack.TaxonomyFetch Example.state.Get.1.UID.Value
          = Except.error "not found"
      ∧ Example.helpers.IsNotFoundError "not found" = true
      ∧ (Read Example.failingStack Example.helpers { State := Example.state }
            Example.stateResp).resp.Diagnostics
          = [{ Severity := diag.Severity.SeverityError,
               Summary := "Error retrieving taxonomy",
               Detail := "The taxonomy with UID tax_001 was not found." }]
      ∧ (Read Example.failingStack Example.helpers { State := Example.state }
            Example.stateResp).resp.State = Example.stateResp.State :=
  ⟨rfl, rfl, by decide,
    (Read_not_found_diagnostic Example.failingStack Example.helpers { State := Example.state }
      Example.stateResp "not found" rfl rfl (by decide)).1.trans (by decide),
    (Read_not_found_diagnostic Example.failingStack Example.helpers { State := Example.state }
      Example.stateResp "not found" rfl rfl (by decide)).2.1⟩

/-- C7: if Create succeeds with the remote resource `r`, and a following Read,
whose request state is the record Create wrote, fetches the same `r` for the
created uid, then the state written by Read is the state written by Create;
and any further Read that fetches the same `r` writes that same state. -/
theorem Read_after_Create_same_state {ε : Type} (stack stack₁ stack₂ : Stack ε)
    (h h₁ h₂ : Helpers ε) (creq : tfsdk.CreateResourceRequest) (cresp : tfsdk.Response)
    (rreq rreq₂ : tfsdk.ReadResourceRequest) (rresp rresp₂ : tfsdk.Response)
    (r : management.Taxonomy)
    (hplan : diag.HasError (diag.Append cresp.Diagnostics creq.Plan.Get.2) = false)
    (hcreate : stack.TaxonomyCreate (NewTaxonomyInput creq.Plan.Get.1) = Except.ok r)
    (hreq : some rreq.State.Get.1 = (Create stack h creq cresp).resp.State.Raw)
    (hstate : diag.HasError (diag.Append rresp.Diagnostics rreq.State.Get.2) = false)
    (hfetch : stack₁.TaxonomyFetch r.UID = Except.ok r)
    (hstate₂ : diag.HasError (diag.Append rresp₂.Diagnostics rreq₂.State.Get.2) = false)
    (hfetch₂ : stack₂.TaxonomyFetch rreq₂.State.Get.1.UID.Value = Except.ok r) :
    (Read stack₁ h₁ rreq rresp).resp.State = (Create stack h creq cresp).resp.State
      ∧ (Read stack₂ h₂ rreq₂ rresp₂).resp.State = (Read stack₁ h₁ rreq rresp).resp.State := by
  have hc : (Create stack h creq cresp).resp.State = { Raw := some (NewTaxonomyData r) } := by
    simp [Create, hplan, hcreate, tfsdk.State.Set]
  rw [hc] at hreq
  have hval : rreq.State.Get.1 = NewTaxonomyData r := by
    simpa using hreq
  have huid : rreq.State.Get.1.UID.Value = r.UID := by
    rw [hval]
    rfl
  have hr : (Read stack₁ h₁ rreq rresp).resp.State = { Raw := some (NewTaxonomyData r) } := by
    rw [← huid] at hfetch
    simp [Read, hstate, hfetch, tfsdk.State.Set]
  have hr₂ : (Read stack₂ h₂ rreq₂ rresp₂).resp.State = { Raw := some (NewTaxonomyData r) } := by
    simp [Read, hstate₂, hfetch₂, tfsdk.State.Set]
  rw [hc, hr, hr₂]
  exact ⟨rfl, rfl⟩

/-- Worked example of C7: create `Regions`, then read it back twice. -/
theorem Read_after_Create_same_state_witness :
    diag.HasError (diag.Append Example.emptyResp.Diagnostics Example.plan.Get.2) = false
      ∧ Example.stack.TaxonomyCreate (NewTaxonomyInput Example.plan.Get.1)
          = Except.ok { UID := "tax_001", Name := "Regions", Description := "Geo taxonomy" }
      ∧ some Example.state.Get.1
          = (Create Example.stack Example.helpers { Plan := Example.plan }
              Example.emptyResp).resp.State.Raw
      ∧ Example.stack.TaxonomyFetch "tax_001"
          = Except.ok { UID := "tax_001", Name := "Regions", Description := "Geo taxonomy" }
      ∧ (Read Example.stack Example.helpers { State := Example.state }
            Example.stateResp).resp.State
          = (Create Example.stack Example.helpers { Plan := Example.plan }
              Example.emptyResp).resp.State
      ∧ (Read Example.stack Example.strictHelpers { State := Example.state }
            Example.stateResp).resp.State
          = (Read Example.stack Example.helpers { State := Example.state }
              Example.stateResp).resp.State :=
  ⟨rfl, rfl, rfl, rfl,
    Read_after_Create_same_state Example.stack Example.stack Example.stack
      Example.helpers Example.helpers Example.strictHelpers { Plan := Example.plan }
      Example.emptyResp { State := Example.state } { State := Example.state }
      Example.stateResp Example.stateResp
      { UID := "tax_001", Name := "Regions", Description := "Geo taxonomy" }
      rfl rfl rfl rfl rfl rfl rfl⟩

/-! ## Response reconciliation -/

/-- C10: in Create, Read and Update, when the decoding succeeded and the remote
call returned `r`, the handler writes `NewTaxonomyData r` to the state whatever
`processResponse` returns, and the diagnostics of `processResponse` are appended
to the diagnostics of the response: the earlier diagnostics are kept in front
and every reconciliation diagnostic is present afterwards. -/
theorem reconciliation_never_aborts {ε : Type} (stack : Stack ε) (h : Helpers ε)
    (r : management.Taxonomy) (resp : tfsdk.Response) :
    (∀ req : tfsdk.CreateResourceRequest,
        diag.HasError (diag.Append resp.Diagnostics req.Plan.Get.2) = false →
        stack.TaxonomyCreate (NewTaxonomyInput req.Plan.Get.1) = Except.ok r →
        (Create stack h req resp).resp.State.Raw = some (NewTaxonomyData r)
          ∧ (Create stack h req resp).resp.Diagnostics
              = diag.Append (diag.Append resp.Diagnostics req.Plan.Get.2)
                  (h.processResponse r (NewTaxonomyInput req.Plan.Get.1))
          ∧ (∃ extra, (Create stack h req resp).resp.Diagnostics = resp.Diagnostics ++ extra)
          ∧ ∀ d ∈ h.processResponse r (NewTaxonomyInput req.Plan.Get.1),
              d ∈ (Create stack h req resp).resp.Diagnostics)
      ∧ (∀ req : tfsdk.ReadResourceRequest,
        diag.HasError (diag.Append resp.Diagnostics req.State.Get.2) = false →
        stack.TaxonomyFetch req.State.Get.1.UID.Value = Except.ok r →
        (Read stack h req resp).resp.State.Raw = some (NewTaxonomyData r)
          ∧ (Read stack h req resp).resp.Diagnostics
              = diag.Append (diag.Append resp.Diagnostics req.State.Get.2)
                  (h.processResponse r (NewTaxonomyInput req.State.Get.1))
          ∧ (∃ extra, (Read stack h req resp).resp.Diagnostics = resp.Diagnostics ++ extra)
          ∧ ∀ d ∈ h.processResponse r (NewTaxonomyInput req.State.Get.1),
              d ∈ (Read stack h req resp).resp.Diagnostics)
      ∧ (∀ req : tfsdk.UpdateResourceRequest,
        diag.HasError (diag.Append resp.Diagnostics req.Plan.Get.2) = false →
        diag.HasError (diag.Append (diag.Append resp.Diagnostics req.Plan.Get.2)
          req.State.Get.2) = false →
        stack.TaxonomyUpdate req.State.Get.1.UID.Value (NewTaxonomyInput req.Plan.Get.1)
          = Except.ok r →
        (Update stack h req resp).resp.State.Raw = some (NewTaxonomyData r)
          ∧ (Update stack h req resp).resp.Diagnostics
              = diag.Append (diag.Append (diag.Append resp.Diagnostics req.Plan.Get.2)
                  req.State.Get.2) (h.processResponse r (NewTaxonomyInput req.Plan.Get.1))
          ∧ (∃ extra, (Update stack h req resp).resp.Diagnostics = resp.Diagnostics ++ extra)
          ∧ ∀ d ∈ h.processResponse r (NewTaxonomyInput req.Plan.Get.1),
              d ∈ (Update stack h req resp).resp.Diagnostics) := by
  refine ⟨?_, ?_, ?_⟩
  · intro req hplan hok
    have hd : (Create stack h req resp).resp.Diagnostics
        = diag.Append (diag.Append resp.Diagnostics req.Plan.Get.2)
            (h.processResponse r (NewTaxonomyInput req.Plan.Get.1)) := by
      simp [Create, hplan, hok, tfsdk.State.Set, diag.Append_nil]
    refine ⟨by simp [Create, hplan, hok, tfsdk.State.Set], hd, ?_, ?_⟩
    · obtain ⟨x, hx⟩ := diag.Append_extends resp.Diagnostics req.Plan.Get.2
      obtain ⟨y, hy⟩ := diag.Append_extends (diag.Append resp.Diagnostics req.Plan.Get.2)
        (h.processResponse r (NewTaxonomyInput req.Plan.Get.1))
      exact ⟨x ++ y, by rw [hd, hy, hx, List.append_assoc]⟩
    · intro d hmem
      rw [hd]
      exact diag.mem_Append_right _ _ d hmem
  · intro req hstate hok
    have hd : (Read stack h req resp).resp.Diagnostics
        = diag.Append (diag.Append resp.Diagnostics req.State.Get.2)
            (h.processResponse r (NewTaxonomyInput req.State.Get.1)) := by
      simp [Read, hstate, hok, tfsdk.State.Set, diag.Append_nil]
    refine ⟨by simp [Read, hstate, hok, tfsdk.State.Set], hd, ?_, ?_⟩
    · obtain ⟨x, hx⟩ := diag.Append_extends resp.Diagnostics req.State.Get.2
      obtain ⟨y, hy⟩ := diag.Append_extends (diag.Append resp.Diagnostics req.State.Get.2)
        (h.processResponse r (NewTaxonomyInput req.State.Get.1))
      exact ⟨x ++ y, by rw [hd, hy, hx, List.append_assoc]⟩
    · intro d hmem
      rw [hd]
      exact diag.mem_Append_right _ _ d hmem
  · intro req hplan hstate hok
    have hd : (Update stack h req resp).resp.Diagnostics
        = diag.Append (diag.Append (diag.Append resp.Diagnostics req.Plan.Get.2)
            req.State.Get.2) (h.processResponse r (NewTaxonomyInput req.Plan.Get.1)) := by
      simp [Update, hplan, hstate, hok, tfsdk.State.Set, diag.Append_nil]
    refine ⟨by simp [Update, hplan, hstate, hok, tfsdk.State.Set], hd, ?_, ?_⟩
    · obtain ⟨x, hx⟩ := diag.Append_extends resp.Diagnostics req.Plan.Get.2
      obtain ⟨y, hy⟩ := diag.Append_extends (diag.Append resp.Diagnostics req.Plan.Get.2)
        req.State.Get.2
      obtain ⟨z, hz⟩ := diag.Append_extends
        (diag.Append (diag.Append resp.Diagnostics req.Plan.Get.2) req.State.Get.2)
        (h.processResponse r (NewTaxonomyInput req.Plan.Get.1))
      exact ⟨x ++ (y ++ z), by rw [hd, hz, hy, hx]; simp [List.append_assoc]⟩
    · intro d hmem
      rw [hd]
      exact diag.mem_Append_right _ _ d hmem

/-- Worked example of C10: with a reconciliation that reports an error in every
case, Create, Read and Update still write the remote representation and carry
that error diagnostic. -/
theorem reconciliation_never_aborts_witness :
    (Create Example.stack Example.strictHelpers { Plan := Example.plan }
        Example.emptyResp).resp.State.Raw
        = some (NewTaxonomyData
            { UID := "tax_001", Name := "Regions", Description := "Geo taxonomy" })
      ∧ (Read Example.stack Example.strictHelpers { State := Example.state }
          Example.emptyResp).resp.Diagnostics
        = [diag.NewErrorDiagnostic "Mismatch" "field differs"]
      ∧ (Update Example.stack Example.strictHelpers
          { Plan := Example.updatePlan, State := Example.state }
          Example.emptyResp).resp.State.Raw
        = some (NewTaxonomyData { UID := "tax_001", Name := "Areas", Description := "" }) :=
  ⟨((reconciliation_never_aborts Example.stack Example.strictHelpers
      { UID := "tax_001", Name := "Regions", Description := "Geo taxonomy" }
      Example.emptyResp).1 { Plan := Example.plan } rfl rfl).1,
    ((reconciliation_never_aborts Example.stack Example.strictHelpers
      { UID := "tax_001", Name := "Regions", Description := "Geo taxonomy" }
      Example.emptyResp).2.1 { State := Example.state } rfl rfl).2.1.trans (by decide),
    ((reconciliation_never_aborts Example.stack Example.strictHelpers
      { UID := "tax_001", Name := "Areas", Description := "" }
      Example.emptyResp).2.2 { Plan := Example.updatePlan, State := Example.state }
      rfl rfl rfl).1⟩

end Provider
